import Mathlib

/-!
Shallow embedding of the `jablotron_cloud` Home Assistant custom integration
(files `custom_components/jablotron_cloud/{const.py, climate.py, jablotron.py,
types.py}`), restricted to the climate entity's state mapping, command
dispatch, refresh projection, and the bridge's temperature-control call.

Conventions of the embedding:
* Python dictionaries with a fixed key set become structures; optional keys
  (read with `.get`) become `Option` fields.
* Temperatures carry no arithmetic in this code, so they are embedded as `ℚ`.
* A vendor control call is an oracle function returning `VendorResult`:
  `ok b` for a normal return of `b`, `unauthorized` for `UnauthorizedException`,
  `errored` for any other exception.
* Exceptions raised by entity methods become an `Option HAError` field of the
  method's outcome; the outcome also records the post-call entity state and
  what was sent to the vendor.
-/

namespace JablotronCloud

/-- Home Assistant `HVACMode` enumeration (`homeassistant.components.climate`).
The integration advertises only `off`, `heat`, `auto`; the remaining platform
modes exist so the defensive no-table-entry branch of `async_set_hvac_mode`
is representable. -/
inductive HVACMode where
  | off
  | heat
  | cool
  | heatCool
  | auto
  | dry
  | fanOnly
deriving DecidableEq, Repr

/-- Home Assistant `HVACAction` values used by this integration. -/
inductive HVACAction where
  | off
  | heating
  | idle
deriving DecidableEq, Repr

/-- `const.py` `THERMO_STATE_TO_HVAC_MODE`: the fixed dictionary from vendor
heating-mode strings to HVAC modes, as a lookup returning `none` off-table. -/
def THERMO_STATE_TO_HVAC_MODE (s : String) : Option HVACMode :=
  if s = "OFF" then some HVACMode.off
  else if s = "STAND_BY" then some HVACMode.off
  else if s = "MANUAL" then some HVACMode.heat
  else if s = "MANUAL_TEMP" then some HVACMode.heat
  else if s = "SCHEDULED" then some HVACMode.auto
  else if s = "ON" then some HVACMode.heat
  else none

/-- The key set of `THERMO_STATE_TO_HVAC_MODE` (the six strings of the dict
literal in `const.py`). -/
def THERMO_STATE_KEYS : List String :=
  ["OFF", "STAND_BY", "MANUAL", "MANUAL_TEMP", "SCHEDULED", "ON"]

/-- `const.py` `HVAC_MODE_TO_THERMO_STATE`: the fixed dictionary from HVAC
modes to vendor heating-mode strings; `none` for the four modes the dict
does not list. -/
def HVAC_MODE_TO_THERMO_STATE : HVACMode → Option String
  | HVACMode.off => some "OFF"
  | HVACMode.heat => some "MANUAL"
  | HVACMode.auto => some "SCHEDULED"
  | _ => none

/-- The nested `state` record of a thermo device (`climate.py` reads keys
`temperature-set`, `mode`, `heating-state`, each possibly absent). -/
structure ThermoDeviceState where
  temperatureSet : Option ℚ
  mode : Option String
  heatingState : Option String
deriving DecidableEq, Repr

/-- The empty dict `{}` that `thermo_device.get("state", {})` supplies when
the `state` key is absent. -/
def ThermoDeviceState.empty : ThermoDeviceState :=
  ThermoDeviceState.mk none none none

/-- A thermo device entry of a service snapshot, with the fields
`_handle_coordinator_update` reads: `object-device-id`, `temperature`
(possibly absent) and `state` (possibly absent). -/
structure JablotronThermoDevice where
  objectDeviceId : String
  temperature : Option ℚ
  state : Option ThermoDeviceState
deriving DecidableEq, Repr

/-- `types.py` `JablotronServiceData`, restricted to the fields the climate
platform reads. -/
structure JablotronServiceData where
  name : String
  serviceType : String
  firmware : String
  thermo : List JablotronThermoDevice
deriving DecidableEq, Repr

/-- The client wrapper's snapshot `client.services`: a mapping from service
id to service data, embedded as an association list. -/
abbrev Services : Type := List (Int × JablotronServiceData)

/-- The mutable attributes of a `JablotronClimate` entity that the claims
are about (`_attr_current_temperature`, `_attr_target_temperature`,
`_attr_hvac_mode`, `_attr_hvac_action`, `_attr_min_temp`, `_attr_max_temp`),
plus the identifying fields. `minTemp`/`maxTemp` are `none` when `__init__`
left the class default in place. -/
structure JablotronClimate where
  serviceId : Int
  thermoDeviceId : String
  currentTemperature : Option ℚ
  targetTemperature : Option ℚ
  hvacMode : HVACMode
  hvacAction : HVACAction
  minTemp : Option ℚ
  maxTemp : Option ℚ
deriving DecidableEq, Repr

/-- `JablotronClimate.__init__` (climate.py lines 109-147): stores the
snapshot-fragment values, maps `heating_mode` through
`THERMO_STATE_TO_HVAC_MODE` with default `OFF`, sets the HVAC action to
`OFF` when the mode is `OFF` and `IDLE` otherwise, and stores the bounds
only when given.  The device's `heating-state` is not an argument: it is
not consulted at construction time. -/
def JablotronClimate.init (serviceId : Int) (thermoDeviceId : String)
    (currentTemperature targetTemperature : Option ℚ) (heatingMode : String)
    (minTemp maxTemp : Option ℚ) : JablotronClimate :=
  let mode := (THERMO_STATE_TO_HVAC_MODE heatingMode).getD HVACMode.off
  JablotronClimate.mk serviceId thermoDeviceId currentTemperature
    targetTemperature mode
    (if mode = HVACMode.off then HVACAction.off else HVACAction.idle)
    minTemp maxTemp

/-- The refresh projection's mode derivation (climate.py lines 275-276):
`state.get("mode", "OFF")` followed by
`THERMO_STATE_TO_HVAC_MODE.get(heating_mode, HVACMode.OFF)`. -/
def deriveHvacMode (modeField : Option String) : HVACMode :=
  (THERMO_STATE_TO_HVAC_MODE (modeField.getD "OFF")).getD HVACMode.off

/-- The refresh projection's action derivation (climate.py lines 279-285). -/
def deriveHvacAction (mode : HVACMode) (heatingState : String) : HVACAction :=
  if mode = HVACMode.off then HVACAction.off
  else if heatingState = "HEATING" then HVACAction.heating
  else HVACAction.idle

/-- `state.get("heating-state", "HEATING_OFF")` (climate.py line 279). -/
def effectiveHeatingState (st : ThermoDeviceState) : String :=
  st.heatingState.getD "HEATING_OFF"

/-- `JablotronClimate._handle_coordinator_update` (climate.py lines 241-287):
locate the service by id (absent: log and return), bail out on an empty
thermo-device list, locate the device by `object-device-id` (absent: log and
return), then overwrite current temperature, target temperature, HVAC mode
and HVAC action from the snapshot.  Total: the skipped branches return the
entity unchanged, mirroring log-and-return. -/
def handleCoordinatorUpdate (e : JablotronClimate) (services : Services) :
    JablotronClimate :=
  match List.lookup e.serviceId services with
  | none => e
  | some service =>
    if service.thermo.isEmpty then e
    else
      match service.thermo.find? (fun d => d.objectDeviceId == e.thermoDeviceId) with
      | none => e
      | some device =>
        let st := device.state.getD ThermoDeviceState.empty
        let mode := deriveHvacMode st.mode
        JablotronClimate.mk e.serviceId e.thermoDeviceId
          device.temperature st.temperatureSet mode
          (deriveHvacAction mode (effectiveHeatingState st))
          e.minTemp e.maxTemp

/-- Outcome of one vendor control call, as seen by the entity code:
`ok b` is a normal return of `b`; `unauthorized` is `UnauthorizedException`;
`errored` is any other exception. -/
inductive VendorResult where
  | ok (success : Bool)
  | unauthorized
  | errored
deriving DecidableEq, Repr

/-- The two Home Assistant exceptions the entity methods raise
(`ConfigEntryAuthFailed`, `HomeAssistantError` with key `control_failed`). -/
inductive HAError where
  | configEntryAuthFailed
  | homeAssistantError
deriving DecidableEq, Repr

/-- Outcome of `async_set_hvac_mode`: the entity state after the call, what
was raised (if anything), and the heating-mode string sent to the vendor
(`none` when no vendor call was made). -/
structure SetModeOutcome where
  entity : JablotronClimate
  raised : Option HAError
  sent : Option String
deriving Repr

/-- Outcome of `async_set_temperature`: the entity state after the call,
what was raised, and the temperature sent (`none` when no call was made). -/
structure SetTempOutcome where
  entity : JablotronClimate
  raised : Option HAError
  sent : Option ℚ
deriving Repr

/-- `JablotronClimate.async_set_hvac_mode` (climate.py lines 161-197):
table lookup with log-and-return on a missing entry; wake-from-off override
to `"ON"` when the cached mode is `OFF` and the request is not `OFF`; vendor
call; on a truthy result the cached mode becomes the requested mode, on a
falsy result nothing changes; `UnauthorizedException` is re-raised as
`ConfigEntryAuthFailed`, anything else as `HomeAssistantError`. -/
def asyncSetHvacMode (e : JablotronClimate) (hvacMode : HVACMode)
    (vendor : String → VendorResult) : SetModeOutcome :=
  match HVAC_MODE_TO_THERMO_STATE hvacMode with
  | none => SetModeOutcome.mk e none none
  | some tableString =>
    let heatingMode :=
      if e.hvacMode = HVACMode.off ∧ hvacMode ≠ HVACMode.off then "ON"
      else tableString
    match vendor heatingMode with
    | VendorResult.ok true =>
        SetModeOutcome.mk
          (JablotronClimate.mk e.serviceId e.thermoDeviceId
            e.currentTemperature e.targetTemperature hvacMode e.hvacAction
            e.minTemp e.maxTemp)
          none (some heatingMode)
    | VendorResult.ok false =>
        SetModeOutcome.mk e none (some heatingMode)
    | VendorResult.unauthorized =>
        SetModeOutcome.mk e (some HAError.configEntryAuthFailed)
          (some heatingMode)
    | VendorResult.errored =>
        SetModeOutcome.mk e (some HAError.homeAssistantError)
          (some heatingMode)

/-- `JablotronClimate.async_set_temperature` (climate.py lines 199-231):
missing temperature is a silent no-op; otherwise vendor call; on a truthy
result the cached target temperature becomes the requested value; exception
translation as in `asyncSetHvacMode`. -/
def asyncSetTemperature (e : JablotronClimate) (temperature : Option ℚ)
    (vendor : ℚ → VendorResult) : SetTempOutcome :=
  match temperature with
  | none => SetTempOutcome.mk e none none
  | some t =>
    match vendor t with
    | VendorResult.ok true =>
        SetTempOutcome.mk
          (JablotronClimate.mk e.serviceId e.thermoDeviceId
            e.currentTemperature (some t) e.hvacMode e.hvacAction
            e.minTemp e.maxTemp)
          none (some t)
    | VendorResult.ok false =>
        SetTempOutcome.mk e none (some t)
    | VendorResult.unauthorized =>
        SetTempOutcome.mk e (some HAError.configEntryAuthFailed) (some t)
    | VendorResult.errored =>
        SetTempOutcome.mk e (some HAError.homeAssistantError) (some t)

/-- One entry of the vendor response's `states` list, with the field
`set_thermo_device_temperature` compares (`object-device-id`). -/
structure DeviceStateEntry where
  objectDeviceId : String
deriving DecidableEq, Repr

/-- The `data` object of the vendor response to `controlThermoDevice.json`:
`control-errors` (error payloads, embedded as strings) and `states`. -/
structure ControlResponseData where
  controlErrors : List String
  states : List DeviceStateEntry
deriving DecidableEq, Repr

/-- `jablotronpy.exceptions.ControlActionException` carrying the error
payload it was raised with. -/
inductive ControlActionException where
  | mk (error : String)
deriving DecidableEq, Repr

/-- `JablotronBridge.set_thermo_device_temperature` (jablotron.py lines
12-55), from the parsed response onward: iterate `control-errors`, raising
`ControlActionException` with the first payload; otherwise return whether
`states` holds an entry whose `object-device-id` equals the requested id. -/
def set_thermo_device_temperature (objectDeviceId : String)
    (responseData : ControlResponseData) : Except ControlActionException Bool :=
  match responseData.controlErrors with
  | [] =>
      Except.ok
        ((responseData.states.find?
          (fun s => s.objectDeviceId == objectDeviceId)).isSome)
  | err :: _ => Except.error (ControlActionException.mk err)

/-- One observable event in a climate entity's lifetime after construction:
a coordinator notification, a `setHvacMode` command, or a `setTemperature`
command (each command with its vendor-call oracle). -/
inductive ClimateEvent where
  | refresh (services : Services)
  | setMode (hvacMode : HVACMode) (vendor : String → VendorResult)
  | setTemp (temperature : Option ℚ) (vendor : ℚ → VendorResult)

/-- The entity state after one lifetime event (a raised exception leaves the
entity state as the outcome records it: unchanged). -/
def stepClimate (e : JablotronClimate) : ClimateEvent → JablotronClimate
  | ClimateEvent.refresh services => handleCoordinatorUpdate e services
  | ClimateEvent.setMode m vendor => (asyncSetHvacMode e m vendor).entity
  | ClimateEvent.setTemp t vendor => (asyncSetTemperature e t vendor).entity

/-- The entity state after a sequence of lifetime events. -/
def runClimate (e : JablotronClimate) (events : List ClimateEvent) :
    JablotronClimate :=
  events.foldl stepClimate e

/-- The spec's §3 invariant relating an entity's HVAC mode, HVAC action and
the device's `heating-state` value: action `OFF` whenever mode `OFF`;
otherwise action `HEATING` iff `heating-state == "HEATING"`, else `IDLE`. -/
def hvacInvariant (e : JablotronClimate) (heatingState : String) : Prop :=
  (e.hvacMode = HVACMode.off → e.hvacAction = HVACAction.off) ∧
  (e.hvacMode ≠ HVACMode.off →
    ((e.hvacAction = HVACAction.heating ↔ heatingState = "HEATING") ∧
     (heatingState ≠ "HEATING" → e.hvacAction = HVACAction.idle)))

instance (e : JablotronClimate) (heatingState : String) :
    Decidable (hvacInvariant e heatingState) := by
  unfold hvacInvariant
  infer_instance

/-! Concrete fixtures used by witnesses and counterexamples. -/

/-- A device state as delivered by the vendor while actively heating in
manual mode. -/
def sampleState : ThermoDeviceState :=
  ThermoDeviceState.mk (some 21) (some "MANUAL") (some "HEATING")

/-- A controllable thermo device. -/
def sampleDevice : JablotronThermoDevice :=
  JablotronThermoDevice.mk "THERMO-1" (some 20) (some sampleState)

/-- A service holding `sampleDevice`. -/
def sampleService : JablotronServiceData :=
  JablotronServiceData.mk "Home" "JA100" "1.0" [sampleDevice]

/-- A snapshot with the single service id 1. -/
def sampleServices : Services := [((1 : Int), sampleService)]

/-- The entity constructed from `sampleDevice`'s fragment. -/
def sampleEntity : JablotronClimate :=
  JablotronClimate.init 1 "THERMO-1" (some 20) (some 21) "MANUAL"
    (some 5) (some 30)

/-- An entity whose cached mode is `OFF`. -/
def sampleOffEntity : JablotronClimate :=
  JablotronClimate.init 1 "THERMO-1" none none "OFF" none none

/-- A vendor oracle that always reports success. -/
def vendorAlwaysTrue : String → VendorResult := fun _ => VendorResult.ok true

/-- A vendor oracle that always raises `UnauthorizedException`. -/
def vendorModeUnauthorized : String → VendorResult :=
  fun _ => VendorResult.unauthorized

/-- A temperature-call oracle that always raises `UnauthorizedException`. -/
def vendorTempUnauthorized : ℚ → VendorResult :=
  fun _ => VendorResult.unauthorized

/-! ## Theorems -/

/-- C4: the refresh projection's mode derivation is a total function, and
every heating-mode string outside the six-key table, as well as an absent
`mode` field, derives HVAC mode `OFF`. -/
theorem C4_mode_default_totality (s : String) (hs : s ∉ THERMO_STATE_KEYS) :
    deriveHvacMode (some s) = HVACMode.off ∧
    deriveHvacMode none = HVACMode.off := by
  constructor
  · simp only [THERMO_STATE_KEYS, List.mem_cons, List.not_mem_nil, or_false,
      not_or] at hs
    obtain ⟨h1, h2, h3, h4, h5, h6⟩ := hs
    simp [deriveHvacMode, THERMO_STATE_TO_HVAC_MODE, h1, h2, h3, h4, h5, h6]
  · rfl

/-- Witness for C4 at the concrete off-table string `"UNKNOWN"`. -/
theorem C4_mode_default_totality_witness :
    "UNKNOWN" ∉ THERMO_STATE_KEYS ∧
    (deriveHvacMode (some "UNKNOWN") = HVACMode.off ∧
     deriveHvacMode none = HVACMode.off) :=
  ⟨by decide, C4_mode_default_totality "UNKNOWN" (by decide)⟩

/-- Helper: `_handle_coordinator_update` never writes `_attr_min_temp` or
`_attr_max_temp`, whichever branch it takes. -/
theorem handleCoordinatorUpdate_bounds (e : JablotronClimate)
    (services : Services) :
    (handleCoordinatorUpdate e services).minTemp = e.minTemp ∧
    (handleCoordinatorUpdate e services).maxTemp = e.maxTemp := by
  unfold handleCoordinatorUpdate
  constructor
  all_goals
    split
    · rfl
    split
    · rfl
    split <;> rfl

/-- Helper: folding any list of snapshots through the refresh projection
leaves the bounds untouched. -/
theorem foldl_handleCoordinatorUpdate_bounds (snapshots : List Services)
    (e : JablotronClimate) :
    (snapshots.foldl handleCoordinatorUpdate e).minTemp = e.minTemp ∧
    (snapshots.foldl handleCoordinatorUpdate e).maxTemp = e.maxTemp := by
  induction snapshots generalizing e with
  | nil => exact ⟨rfl, rfl⟩
  | cons s rest ih =>
    rcases ih (handleCoordinatorUpdate e s) with ⟨h1, h2⟩
    rcases handleCoordinatorUpdate_bounds e s with ⟨g1, g2⟩
    exact ⟨h1.trans g1, h2.trans g2⟩

/-- C7: the min/max temperature bounds are the ones given to the
constructor from the setup-time snapshot fragment, and no sequence of later
coordinator refreshes changes them. -/
theorem C7_bounds_fixed_at_construction (serviceId : Int)
    (thermoDeviceId : String) (ct tt : Option ℚ) (heatingMode : String)
    (minT maxT : Option ℚ) (snapshots : List Services) :
    (snapshots.foldl handleCoordinatorUpdate
        (JablotronClimate.init serviceId thermoDeviceId ct tt heatingMode
          minT maxT)).minTemp = minT ∧
    (snapshots.foldl handleCoordinatorUpdate
        (JablotronClimate.init serviceId thermoDeviceId ct tt heatingMode
          minT maxT)).maxTemp = maxT := by
  rcases foldl_handleCoordinatorUpdate_bounds snapshots
      (JablotronClimate.init serviceId thermoDeviceId ct tt heatingMode
        minT maxT) with ⟨h1, h2⟩
  exact ⟨h1, h2⟩

/-- C9: immediately after construction the HVAC action is `OFF` exactly
when the initial HVAC mode is `OFF` and `IDLE` otherwise, and it is never
`HEATING` — `__init__` takes no heating-state argument at all, so the
initial snapshot's `heating-state` cannot influence it. -/
theorem C9_init_action_never_heating (serviceId : Int)
    (thermoDeviceId : String) (ct tt : Option ℚ) (heatingMode : String)
    (minT maxT : Option ℚ) :
    (JablotronClimate.init serviceId thermoDeviceId ct tt heatingMode
        minT maxT).hvacAction =
      (if (JablotronClimate.init serviceId thermoDeviceId ct tt heatingMode
          minT maxT).hvacMode = HVACMode.off
       then HVACAction.off else HVACAction.idle) ∧
    (JablotronClimate.init serviceId thermoDeviceId ct tt heatingMode
        minT maxT).hvacAction ≠ HVACAction.heating := by
  constructor
  · rfl
  · simp only [JablotronClimate.init]
    split <;> simp

/-- C6: when the snapshot holds no entry for the entity's service id, the
refresh projection is the identity on the entity — every displayed field
keeps its previous value — and, being total, it raises nothing. -/
theorem C6_missing_service_is_frame (e : JablotronClimate)
    (services : Services)
    (h : List.lookup e.serviceId services = none) :
    handleCoordinatorUpdate e services = e := by
  unfold handleCoordinatorUpdate
  rw [h]

/-- Witness for C6: an empty snapshot leaves the sample entity unchanged. -/
theorem C6_missing_service_is_frame_witness :
    handleCoordinatorUpdate sampleOffEntity [] = sampleOffEntity :=
  C6_missing_service_is_frame sampleOffEntity [] rfl

/-- C3: `set_thermo_device_temperature` fails with a control-action error
carrying the first `control-errors` payload whenever that list is
non-empty; with no control errors it returns `true` iff `states` holds an
entry whose `object-device-id` equals the requested id, and returns `false`
(a value, not an exception) when no such entry exists. -/
theorem C3_temperature_response_contract (objectDeviceId err : String)
    (restErrors : List String) (states : List DeviceStateEntry) :
    set_thermo_device_temperature objectDeviceId
        (ControlResponseData.mk (err :: restErrors) states)
      = Except.error (ControlActionException.mk err) ∧
    (set_thermo_device_temperature objectDeviceId
        (ControlResponseData.mk [] states) = Except.ok true ↔
      ∃ s ∈ states, s.objectDeviceId = objectDeviceId) ∧
    ((∀ s ∈ states, s.objectDeviceId ≠ objectDeviceId) →
      set_thermo_device_temperature objectDeviceId
          (ControlResponseData.mk [] states) = Except.ok false) := by
  refine ⟨rfl, ?_, ?_⟩
  · simp [set_thermo_device_temperature]
  · intro h
    simp only [set_thermo_device_temperature, Except.ok.injEq]
    have hnone :
        List.find? (fun s => s.objectDeviceId == objectDeviceId) states
          = none := by
      rw [List.find?_eq_none]
      intro s hs
      simp [h s hs]
    rw [hnone]
    rfl

/-- C10: translating each supported HVAC mode (`OFF`, `HEAT`, `AUTO`) to its
vendor string via `HVAC_MODE_TO_THERMO_STATE` and mapping that string back
through `THERMO_STATE_TO_HVAC_MODE` yields the original mode: the two fixed
tables form a left-inverse pair on the three supported modes. -/
theorem C10_tables_left_inverse :
    (HVAC_MODE_TO_THERMO_STATE HVACMode.off).bind THERMO_STATE_TO_HVAC_MODE
      = some HVACMode.off ∧
    (HVAC_MODE_TO_THERMO_STATE HVACMode.heat).bind THERMO_STATE_TO_HVAC_MODE
      = some HVACMode.heat ∧
    (HVAC_MODE_TO_THERMO_STATE HVACMode.auto).bind THERMO_STATE_TO_HVAC_MODE
      = some HVACMode.auto := by
  decide

/-- Helper: the refresh projection's action derivation satisfies the
mode/action/heating-state invariant by construction. -/
theorem deriveHvacAction_spec (mode : HVACMode) (hs : String) :
    (mode = HVACMode.off → deriveHvacAction mode hs = HVACAction.off) ∧
    (mode ≠ HVACMode.off →
      ((deriveHvacAction mode hs = HVACAction.heating ↔ hs = "HEATING") ∧
       (hs ≠ "HEATING" → deriveHvacAction mode hs = HVACAction.idle))) := by
  unfold deriveHvacAction
  constructor
  · intro h
    rw [if_pos h]
  · intro h
    rw [if_neg h]
    refine ⟨⟨?_, ?_⟩, ?_⟩
    · intro hh
      by_cases hhs : hs = "HEATING"
      · exact hhs
      · rw [if_neg hhs] at hh
        exact absurd hh (by decide)
    · intro hh
      rw [if_pos hh]
    · intro hh
      rw [if_neg hh]

/-- C1 (amended): immediately after every coordinator refresh that locates
the entity's service and its thermo device, the entity satisfies the
mode/action invariant with respect to that snapshot's (defaulted)
`heating-state`: action `OFF` whenever mode `OFF`; otherwise action
`HEATING` iff `heating-state == "HEATING"`, else `IDLE`.  (As a statement
over the whole lifetime the claim fails: see the counterexample at
construction time.) -/
theorem C1_invariant_after_refresh (e : JablotronClimate)
    (services : Services) (service : JablotronServiceData)
    (device : JablotronThermoDevice)
    (hsvc : List.lookup e.serviceId services = some service)
    (hdev : service.thermo.find? (fun d => d.objectDeviceId == e.thermoDeviceId)
      = some device) :
    hvacInvariant (handleCoordinatorUpdate e services)
      (effectiveHeatingState (device.state.getD ThermoDeviceState.empty)) := by
  have hne : ¬(service.thermo.isEmpty = true) := by
    cases hl : service.thermo with
    | nil => rw [hl] at hdev; exact absurd hdev (by simp)
    | cons a l => simp [hl]
  unfold handleCoordinatorUpdate
  split
  · next heq => rw [hsvc] at heq; cases heq
  · next service2 heq =>
    rw [hsvc] at heq
    injection heq with hse
    subst hse
    rw [if_neg hne]
    split
    · next heq2 => rw [hdev] at heq2; cases heq2
    · next device2 heq2 =>
      rw [hdev] at heq2
      injection heq2 with hde
      subst hde
      exact deriveHvacAction_spec
        (deriveHvacMode (device.state.getD ThermoDeviceState.empty).mode)
        (effectiveHeatingState (device.state.getD ThermoDeviceState.empty))

/-- Witness for C1 (amended): the sample refresh locates `sampleDevice` and
the invariant holds against its heating-state `"HEATING"`. -/
theorem C1_invariant_after_refresh_witness :
    hvacInvariant (handleCoordinatorUpdate sampleEntity sampleServices)
      (effectiveHeatingState (sampleDevice.state.getD ThermoDeviceState.empty)) :=
  C1_invariant_after_refresh sampleEntity sampleServices sampleService
    sampleDevice rfl rfl

/-- Counterexample to C1 as stated over the whole lifetime: an entity
freshly constructed (as `async_setup_entry` constructs it) from
`sampleDevice`, whose fragment has `mode = "MANUAL"` and
`heating-state = "HEATING"`, has HVAC mode `HEAT` but HVAC action `IDLE`:
`__init__` never consults `heating-state`, so at this lifetime point the
"HEATING iff heating-state == HEATING" half of the invariant is violated. -/
theorem C1_lifetime_counterexample :
    ¬ hvacInvariant sampleEntity
        (effectiveHeatingState (sampleDevice.state.getD ThermoDeviceState.empty)) := by
  decide

/-- C2: a `setHvacMode` request for `HEAT` or `AUTO` while the cached mode
is `OFF` sends the wake string `"ON"` to the vendor (not the table value),
and a truthy vendor result makes the cached mode the originally requested
mode with nothing raised. -/
theorem C2_wake_from_off_override (e : JablotronClimate) (m : HVACMode)
    (vendor : String → VendorResult)
    (hm : m = HVACMode.heat ∨ m = HVACMode.auto)
    (hoff : e.hvacMode = HVACMode.off) :
    (asyncSetHvacMode e m vendor).sent = some "ON" ∧
    (vendor "ON" = VendorResult.ok true →
      (asyncSetHvacMode e m vendor).entity.hvacMode = m ∧
      (asyncSetHvacMode e m vendor).raised = none) := by
  rcases hm with h | h <;> subst h <;>
    simp only [asyncSetHvacMode, HVAC_MODE_TO_THERMO_STATE, hoff] <;>
    constructor <;>
    (cases hv : vendor "ON" with
      | ok b => cases b <;> simp [hv]
      | unauthorized => simp [hv]
      | errored => simp [hv])

/-- Witness for C2: from the sample OFF entity, requesting `HEAT` against
an always-successful vendor sends `"ON"` and lands in mode `HEAT`. -/
theorem C2_wake_from_off_override_witness :
    (asyncSetHvacMode sampleOffEntity HVACMode.heat vendorAlwaysTrue).sent
      = some "ON" ∧
    (vendorAlwaysTrue "ON" = VendorResult.ok true →
      (asyncSetHvacMode sampleOffEntity HVACMode.heat
        vendorAlwaysTrue).entity.hvacMode = HVACMode.heat ∧
      (asyncSetHvacMode sampleOffEntity HVACMode.heat
        vendorAlwaysTrue).raised = none) :=
  C2_wake_from_off_override sampleOffEntity HVACMode.heat vendorAlwaysTrue
    (Or.inl rfl) rfl

/-- C8: a `setHvacMode` request for `HEAT` or `AUTO` while the cached mode
already equals the request sends the fixed table string for that mode
(`"MANUAL"` or `"SCHEDULED"`), never the wake string `"ON"`: the override
requires the cached mode to be strictly `OFF`. -/
theorem C8_idempotent_request_no_override (e : JablotronClimate)
    (m : HVACMode) (vendor : String → VendorResult)
    (hm : m = HVACMode.heat ∨ m = HVACMode.auto)
    (hcur : e.hvacMode = m) :
    (asyncSetHvacMode e m vendor).sent = HVAC_MODE_TO_THERMO_STATE m ∧
    (asyncSetHvacMode e m vendor).sent ≠ some "ON" := by
  rcases hm with h | h <;> subst h <;>
    simp only [asyncSetHvacMode, HVAC_MODE_TO_THERMO_STATE, hcur] <;>
    constructor <;>
    first
      | (cases hv : vendor "MANUAL" with
          | ok b => cases b <;> simp [hv]
          | unauthorized => simp [hv]
          | errored => simp [hv])
      | (cases hv : vendor "SCHEDULED" with
          | ok b => cases b <;> simp [hv]
          | unauthorized => simp [hv]
          | errored => simp [hv])

/-- Witness for C8: requesting `HEAT` while already `HEAT` sends `"MANUAL"`. -/
theorem C8_idempotent_request_no_override_witness :
    (asyncSetHvacMode sampleEntity HVACMode.heat vendorAlwaysTrue).sent
      = HVAC_MODE_TO_THERMO_STATE HVACMode.heat ∧
    (asyncSetHvacMode sampleEntity HVACMode.heat vendorAlwaysTrue).sent
      ≠ some "ON" :=
  C8_idempotent_request_no_override sampleEntity HVACMode.heat
    vendorAlwaysTrue (Or.inl rfl) rfl

/-- C5: when the vendor call raises `UnauthorizedException` (for any sent
payload), both `setHvacMode` and `setTemperature` raise
`ConfigEntryAuthFailed` — the host platform's re-authentication-required
condition — and the entity's cached state, in particular its HVAC mode and
target temperature, is exactly what it was before the call. -/
theorem C5_unauthorized_propagation (e : JablotronClimate) (m : HVACMode)
    (t : ℚ) (vendorM : String → VendorResult) (vendorT : ℚ → VendorResult)
    (hmode : (HVAC_MODE_TO_THERMO_STATE m).isSome = true)
    (hvm : ∀ s, vendorM s = VendorResult.unauthorized)
    (hvt : ∀ q, vendorT q = VendorResult.unauthorized) :
    ((asyncSetHvacMode e m vendorM).raised
        = some HAError.configEntryAuthFailed ∧
     (asyncSetHvacMode e m vendorM).entity = e) ∧
    ((asyncSetTemperature e (some t) vendorT).raised
        = some HAError.configEntryAuthFailed ∧
     (asyncSetTemperature e (some t) vendorT).entity = e) := by
  constructor
  · obtain ⟨ts, hts⟩ := Option.isSome_iff_exists.mp hmode
    simp only [asyncSetHvacMode, hts, hvm]
    simp
  · simp only [asyncSetTemperature, hvt]
    simp

/-- Witness for C5: the always-unauthorized oracles make both commands
raise `ConfigEntryAuthFailed` and leave the sample entity untouched. -/
theorem C5_unauthorized_propagation_witness :
    ((asyncSetHvacMode sampleEntity HVACMode.heat
        vendorModeUnauthorized).raised
        = some HAError.configEntryAuthFailed ∧
     (asyncSetHvacMode sampleEntity HVACMode.heat
        vendorModeUnauthorized).entity = sampleEntity) ∧
    ((asyncSetTemperature sampleEntity (some 22)
        vendorTempUnauthorized).raised
        = some HAError.configEntryAuthFailed ∧
     (asyncSetTemperature sampleEntity (some 22)
        vendorTempUnauthorized).entity = sampleEntity) :=
  C5_unauthorized_propagation sampleEntity HVACMode.heat 22
    vendorModeUnauthorized vendorTempUnauthorized rfl
    (fun _ => rfl) (fun _ => rfl)

end JablotronCloud
